import Mathlib

/-!
Shallow embedding of the SteamVR-OSVR driver core
(files `src/OSVRTrackedDevice.h`, and the two translation units holding
`OSVRTrackedDevice` and `OSVRTrackedHMD`), together with theorems checking
the natural-language specification against it.

The embedding idealizes C++ `double`/`float` arithmetic as exact rational
or real arithmetic, `uint32_t` arithmetic on sizes as natural-number
arithmetic (the values involved are small and nonnegative), and the
`vr::ETrackedDeviceProperty` enumeration as natural numbers.
-/

set_option autoImplicit false

/-! ## Property store (OSVRTrackedDevice.h) -/

/-- The subset of `vr::ETrackedPropertyError` values produced by
`OSVRTrackedDevice::checkProperty` and
`OSVRTrackedDevice::GetTrackedDeviceProperty`. -/
inductive ETrackedPropertyError where
  | Success
  | WrongDataType
  | WrongDeviceClass
  | InvalidDevice
  | ValueNotProvidedByDevice
  deriving DecidableEq, Repr

/-- The semantic kinds of properties (`bool`, `float`, `int32`, `uint64`,
`string`, `matrix34`), i.e. the possible instantiations of the template
parameter `T` of the generic getter. -/
inductive PropKind where
  | boolKind
  | floatKind
  | int32Kind
  | uint64Kind
  | stringKind
  | matrix34Kind
  deriving DecidableEq, Repr

/-- `vr::ETrackedDeviceClass`: the device classes; `Invalid` is
`vr::TrackedDeviceClass_Invalid`. -/
inductive ETrackedDeviceClass where
  | Invalid
  | HMD
  | Controller
  | TrackingReference
  | Other
  deriving DecidableEq, Repr

/-- Modelled from the spec: `isWrongDataType(prop, T())` (declared in
`PropertyProperties.h`, which is not part of the sources) holds exactly when
the requested kind `T` differs from the semantic kind registered for the
property identifier. `reg` is the registration table. -/
def isWrongDataType (reg : Nat → PropKind) (prop : Nat) (T : PropKind) : Bool :=
  decide (reg prop ≠ T)

namespace OSVRTrackedDevice

/-- `OSVRTrackedDevice::checkProperty` (OSVRTrackedDevice.h, lines 202-218):
short-circuiting validation. `wdc prop c` is the external predicate
`isWrongDeviceClass(prop, c)` from `PropertyProperties.h`, kept abstract. -/
def checkProperty (reg : Nat → PropKind) (wdc : Nat → ETrackedDeviceClass → Bool)
    (deviceClass : ETrackedDeviceClass) (prop : Nat) (T : PropKind) :
    ETrackedPropertyError :=
  if isWrongDataType reg prop T then
    .WrongDataType
  else if wdc prop deviceClass then
    .WrongDeviceClass
  else if deviceClass = .Invalid then
    .InvalidDevice
  else
    .Success

/-- `OSVRTrackedDevice::GetTrackedDeviceProperty` (OSVRTrackedDevice.h,
lines 181-200).  The `error` out-pointer is modelled by the flag
`errNonNull` (whether the caller passed a non-null pointer) together with
the returned list of writes performed through the pointer: each guarded
`if (error) *error = e;` of the source appends `e` exactly when
`errNonNull` is true.  `properties` is the `properties_` map
(`PropertyMap`), with stored values of arbitrary type `V`. -/
def GetTrackedDeviceProperty {V : Type} (reg : Nat → PropKind)
    (wdc : Nat → ETrackedDeviceClass → Bool) (deviceClass : ETrackedDeviceClass)
    (properties : Nat → Option V) (prop : Nat) (T : PropKind)
    (errNonNull : Bool) (default_value : V) : V × List ETrackedPropertyError :=
  let result := checkProperty reg wdc deviceClass prop T
  if result ≠ .Success then
    (default_value, if errNonNull then [result] else [])
  else
    match properties prop with
    | some v => (v, if errNonNull then [ETrackedPropertyError.Success] else [])
    | none =>
        (default_value,
          if errNonNull then [ETrackedPropertyError.ValueNotProvidedByDevice] else [])

end OSVRTrackedDevice

/-- C1 -- For every property query `get<T>(propertyId)`, the result follows the
short-circuiting validation order: wrong data type, then wrong device class,
then invalid device, then missing value (caller default returned), and
otherwise success with the stored value. -/
theorem getTrackedDeviceProperty_validation_order {V : Type}
    (reg : Nat → PropKind) (wdc : Nat → ETrackedDeviceClass → Bool)
    (deviceClass : ETrackedDeviceClass) (properties : Nat → Option V)
    (prop : Nat) (T : PropKind) (default_value : V) :
    (reg prop ≠ T →
      OSVRTrackedDevice.GetTrackedDeviceProperty reg wdc deviceClass properties
        prop T true default_value = (default_value, [.WrongDataType])) ∧
    (reg prop = T → wdc prop deviceClass = true →
      OSVRTrackedDevice.GetTrackedDeviceProperty reg wdc deviceClass properties
        prop T true default_value = (default_value, [.WrongDeviceClass])) ∧
    (reg prop = T → wdc prop deviceClass = false → deviceClass = .Invalid →
      OSVRTrackedDevice.GetTrackedDeviceProperty reg wdc deviceClass properties
        prop T true default_value = (default_value, [.InvalidDevice])) ∧
    (reg prop = T → wdc prop deviceClass = false → deviceClass ≠ .Invalid →
      properties prop = none →
      OSVRTrackedDevice.GetTrackedDeviceProperty reg wdc deviceClass properties
        prop T true default_value = (default_value, [.ValueNotProvidedByDevice])) ∧
    (∀ v, reg prop = T → wdc prop deviceClass = false → deviceClass ≠ .Invalid →
      properties prop = some v →
      OSVRTrackedDevice.GetTrackedDeviceProperty reg wdc deviceClass properties
        prop T true default_value = (v, [.Success])) := by
  refine ⟨?_, ?_, ?_, ?_, ?_⟩ <;>
    simp only [OSVRTrackedDevice.GetTrackedDeviceProperty,
      OSVRTrackedDevice.checkProperty, isWrongDataType]
  · intro h
    simp [h]
  · intro h hc
    simp [h, hc]
  · intro h hc hinv
    subst hinv
    simp [h, hc]
  · intro h hc hinv hnone
    simp [h, hc, hinv, hnone]
  · intro v h hc hinv hsome
    simp [h, hc, hinv, hsome]

/-- Witness for C1: a concrete query of kind `int32` against a property
registered as `float` on an HMD-class device with an empty store returns the
caller default `0` with error `WrongDataType`. -/
theorem getTrackedDeviceProperty_validation_order_witness :
    ((fun _ : Nat => PropKind.floatKind) 0 ≠ PropKind.int32Kind) ∧
    OSVRTrackedDevice.GetTrackedDeviceProperty (fun _ => PropKind.floatKind)
      (fun _ _ => false) .HMD (fun _ => (none : Option Nat)) 0 .int32Kind true 0 =
      (0, [.WrongDataType]) :=
  ⟨by decide,
    (getTrackedDeviceProperty_validation_order (fun _ => PropKind.floatKind)
      (fun _ _ => false) .HMD (fun _ => none) 0 .int32Kind 0).1 (by decide)⟩

/-- C9 -- Passing a null error-out pointer is safe: no write is ever performed
through the pointer, and the returned value is the same as with a non-null
pointer. -/
theorem getTrackedDeviceProperty_null_error_safe {V : Type}
    (reg : Nat → PropKind) (wdc : Nat → ETrackedDeviceClass → Bool)
    (deviceClass : ETrackedDeviceClass) (properties : Nat → Option V)
    (prop : Nat) (T : PropKind) (default_value : V) :
    (OSVRTrackedDevice.GetTrackedDeviceProperty reg wdc deviceClass properties
        prop T false default_value).2 = [] ∧
    (OSVRTrackedDevice.GetTrackedDeviceProperty reg wdc deviceClass properties
        prop T false default_value).1 =
      (OSVRTrackedDevice.GetTrackedDeviceProperty reg wdc deviceClass properties
        prop T true default_value).1 := by
  constructor
  all_goals
    unfold OSVRTrackedDevice.GetTrackedDeviceProperty
    by_cases hres : OSVRTrackedDevice.checkProperty reg wdc deviceClass prop T =
      ETrackedPropertyError.Success <;>
      cases hp : properties prop <;> simp [hres, hp]

/-! ## Eye output viewports (OSVRTrackedDevice::GetEyeOutputViewport) -/

/-- `vr::Hmd_Eye`. -/
inductive HmdEye where
  | Left
  | Right
  deriving DecidableEq, Repr

/-- `OSVRDisplayConfiguration::DisplayMode`; the `Unrecognized` constructor
stands for any enumeration value outside the three named ones (the source
switch has a `default:` branch for those). -/
inductive DisplayMode where
  | HORIZONTAL_SIDE_BY_SIDE
  | VERTICAL_SIDE_BY_SIDE
  | FULL_SCREEN
  | Unrecognized
  deriving DecidableEq, Repr

/-- An output viewport, in pixels (the four `uint32_t` out-parameters of
`GetEyeOutputViewport`). -/
structure Viewport where
  x : Nat
  y : Nat
  width : Nat
  height : Nat
  deriving DecidableEq, Repr

namespace OSVRTrackedDevice

/-- `OSVRTrackedDevice::GetEyeOutputViewport` (first translation unit,
lines 298-326), as a function of the display mode, the display resolution
`(W, H)` and the eye.  `uint32_t` division by 2 is natural-number
(truncating) division. -/
def GetEyeOutputViewport (mode : DisplayMode) (W H : Nat) (eye : HmdEye) :
    Viewport :=
  match mode with
  | .HORIZONTAL_SIDE_BY_SIDE =>
      let width := W / 2
      { width := width, height := H,
        x := if HmdEye.Left = eye then 0 else width, y := 0 }
  | .VERTICAL_SIDE_BY_SIDE =>
      let height := H / 2
      { width := W, height := height,
        x := 0, y := if HmdEye.Left = eye then 0 else height }
  | .FULL_SCREEN =>
      { width := W, height := H, x := 0, y := 0 }
  | .Unrecognized =>
      { width := W, height := H, x := 0, y := 0 }

end OSVRTrackedDevice

/-- Pixel-membership in a viewport: column `i` and row `j` lie inside the
rectangle. -/
def inViewport (vp : Viewport) (i j : Nat) : Prop :=
  vp.x ≤ i ∧ i < vp.x + vp.width ∧ vp.y ≤ j ∧ j < vp.y + vp.height

instance (vp : Viewport) (i j : Nat) : Decidable (inViewport vp i j) := by
  unfold inViewport
  infer_instance

/-- C3 -- The eye output viewport follows the layout-mode policy table:
horizontal side-by-side gives size (W/2, H) with left origin (0,0) and right
origin (W/2, 0); vertical side-by-side gives size (W, H/2) with left origin
(0,0) and right origin (0, H/2); full-screen and unrecognized modes give size
(W, H) with origin (0,0) for both eyes. -/
theorem getEyeOutputViewport_policy_table (W H : Nat) :
    OSVRTrackedDevice.GetEyeOutputViewport .HORIZONTAL_SIDE_BY_SIDE W H .Left =
      ⟨0, 0, W / 2, H⟩ ∧
    OSVRTrackedDevice.GetEyeOutputViewport .HORIZONTAL_SIDE_BY_SIDE W H .Right =
      ⟨W / 2, 0, W / 2, H⟩ ∧
    OSVRTrackedDevice.GetEyeOutputViewport .VERTICAL_SIDE_BY_SIDE W H .Left =
      ⟨0, 0, W, H / 2⟩ ∧
    OSVRTrackedDevice.GetEyeOutputViewport .VERTICAL_SIDE_BY_SIDE W H .Right =
      ⟨0, H / 2, W, H / 2⟩ ∧
    OSVRTrackedDevice.GetEyeOutputViewport .FULL_SCREEN W H .Left = ⟨0, 0, W, H⟩ ∧
    OSVRTrackedDevice.GetEyeOutputViewport .FULL_SCREEN W H .Right = ⟨0, 0, W, H⟩ ∧
    OSVRTrackedDevice.GetEyeOutputViewport .Unrecognized W H .Left = ⟨0, 0, W, H⟩ ∧
    OSVRTrackedDevice.GetEyeOutputViewport .Unrecognized W H .Right = ⟨0, 0, W, H⟩ := by
  refine ⟨rfl, ?_, rfl, ?_, rfl, rfl, rfl, rfl⟩ <;>
    simp [OSVRTrackedDevice.GetEyeOutputViewport]

/-- C4 counterexample -- at resolution (3, 1) in horizontal side-by-side mode,
the two eye viewports do not tile the full rectangle: pixel (2, 0) is covered
by neither eye (truncating division loses the odd column), so the claimed
disjointness-and-exact-cover property fails as stated for arbitrary (W, H). -/
theorem getEyeOutputViewport_tiling_counterexample :
    ¬ ((∀ i j : Nat,
          ¬ (inViewport
                (OSVRTrackedDevice.GetEyeOutputViewport .HORIZONTAL_SIDE_BY_SIDE
                  3 1 .Left) i j ∧
              inViewport
                (OSVRTrackedDevice.GetEyeOutputViewport .HORIZONTAL_SIDE_BY_SIDE
                  3 1 .Right) i j)) ∧
        (∀ i j : Nat,
          (i < 3 ∧ j < 1) ↔
            (inViewport
                (OSVRTrackedDevice.GetEyeOutputViewport .HORIZONTAL_SIDE_BY_SIDE
                  3 1 .Left) i j ∨
              inViewport
                (OSVRTrackedDevice.GetEyeOutputViewport .HORIZONTAL_SIDE_BY_SIDE
                  3 1 .Right) i j))) := by
  rintro ⟨-, hcover⟩
  exact absurd ((hcover 2 0).mp (by decide)) (by decide)

/-- C4 (amended) -- for every resolution (W, H) with even width, the left and
right horizontal-side-by-side viewports are disjoint and their union exactly
covers the rectangle (0,0,W,H). -/
theorem getEyeOutputViewport_tiling_even (W H : Nat) (hW : W % 2 = 0) :
    (∀ i j : Nat,
      ¬ (inViewport
            (OSVRTrackedDevice.GetEyeOutputViewport .HORIZONTAL_SIDE_BY_SIDE
              W H .Left) i j ∧
          inViewport
            (OSVRTrackedDevice.GetEyeOutputViewport .HORIZONTAL_SIDE_BY_SIDE
              W H .Right) i j)) ∧
    (∀ i j : Nat,
      (i < W ∧ j < H) ↔
        (inViewport
            (OSVRTrackedDevice.GetEyeOutputViewport .HORIZONTAL_SIDE_BY_SIDE
              W H .Left) i j ∨
          inViewport
            (OSVRTrackedDevice.GetEyeOutputViewport .HORIZONTAL_SIDE_BY_SIDE
              W H .Right) i j)) := by
  have hL : OSVRTrackedDevice.GetEyeOutputViewport .HORIZONTAL_SIDE_BY_SIDE
      W H .Left = ⟨0, 0, W / 2, H⟩ := rfl
  have hR : OSVRTrackedDevice.GetEyeOutputViewport .HORIZONTAL_SIDE_BY_SIDE
      W H .Right = ⟨W / 2, 0, W / 2, H⟩ := rfl
  rw [hL, hR]
  simp only [inViewport]
  constructor
  · intro i j
    omega
  · intro i j
    omega

/-- Witness for C4 (amended): at resolution (2, 1) the two viewports are
disjoint and exactly cover the 2-by-1 rectangle. -/
theorem getEyeOutputViewport_tiling_even_witness :
    (2 : Nat) % 2 = 0 ∧
    ((∀ i j : Nat,
      ¬ (inViewport
            (OSVRTrackedDevice.GetEyeOutputViewport .HORIZONTAL_SIDE_BY_SIDE
              2 1 .Left) i j ∧
          inViewport
            (OSVRTrackedDevice.GetEyeOutputViewport .HORIZONTAL_SIDE_BY_SIDE
              2 1 .Right) i j)) ∧
    (∀ i j : Nat,
      (i < 2 ∧ j < 1) ↔
        (inViewport
            (OSVRTrackedDevice.GetEyeOutputViewport .HORIZONTAL_SIDE_BY_SIDE
              2 1 .Left) i j ∨
          inViewport
            (OSVRTrackedDevice.GetEyeOutputViewport .HORIZONTAL_SIDE_BY_SIDE
              2 1 .Right) i j))) :=
  ⟨rfl, getEyeOutputViewport_tiling_even 2 1 rfl⟩

/-! ## Tracker callbacks (HmdTrackerCallback) -/

/-- A quaternion, as the four `double` components used by
`vr::HmdQuaternion_t` and `OSVR_Quaternion`. -/
structure HmdQuaternion where
  w : ℚ
  x : ℚ
  y : ℚ
  z : ℚ
  deriving DecidableEq, Repr

/-- The part of `OSVR_PoseReport` consumed by the callbacks: the pose's
translation vector and rotation quaternion. -/
structure OSVRPoseReport where
  translation : Fin 3 → ℚ
  rotation : HmdQuaternion

/-- `vr::TrackingResult`. -/
inductive ETrackingResult where
  | Uninitialized
  | Running_OK
  | Running_OutOfRange
  deriving DecidableEq, Repr

/-- `vr::DriverPose_t`, with `double` fields idealized as rationals. -/
structure DriverPose where
  poseTimeOffset : ℚ
  vecWorldFromDriverTranslation : Fin 3 → ℚ
  vecDriverFromHeadTranslation : Fin 3 → ℚ
  qWorldFromDriverRotation : HmdQuaternion
  qDriverFromHeadRotation : HmdQuaternion
  vecPosition : Fin 3 → ℚ
  vecVelocity : Fin 3 → ℚ
  vecAcceleration : Fin 3 → ℚ
  qRotation : HmdQuaternion
  vecAngularVelocity : Fin 3 → ℚ
  vecAngularAcceleration : Fin 3 → ℚ
  result : ETrackingResult
  poseIsValid : Bool
  willDriftInYaw : Bool
  shouldApplyHeadModel : Bool

namespace OSVRTrackedDevice

/-- The pose value built and published by
`OSVRTrackedDevice::HmdTrackerCallback` (first translation unit, lines
473-527) when `userdata` is non-null.  Note the source's position loop reads
`report->pose.translation.data[0]` for every index `i`. -/
def HmdTrackerCallbackPose (report : OSVRPoseReport) : DriverPose where
  poseTimeOffset := 0
  vecWorldFromDriverTranslation := fun _ => 0
  vecDriverFromHeadTranslation := fun _ => 0
  qWorldFromDriverRotation := ⟨1, 0, 0, 0⟩
  qDriverFromHeadRotation := ⟨1, 0, 0, 0⟩
  vecPosition := fun _ => report.translation 0
  vecVelocity := fun _ => 0
  vecAcceleration := fun _ => 0
  qRotation := report.rotation
  vecAngularVelocity := fun _ => 0
  vecAngularAcceleration := fun _ => 0
  result := .Running_OK
  poseIsValid := true
  willDriftInYaw := true
  shouldApplyHeadModel := true

end OSVRTrackedDevice

namespace OSVRTrackedHMD

/-- The pose value built and published by
`OSVRTrackedHMD::HmdTrackerCallback` (second translation unit, lines
273-311) when `userdata` is non-null; here the position is copied
component-wise via `Eigen::Vector3d::Map(pose.vecPosition) =
osvr::util::vecMap(report->pose.translation)`. -/
def HmdTrackerCallbackPose (report : OSVRPoseReport) : DriverPose where
  poseTimeOffset := 0
  vecWorldFromDriverTranslation := fun _ => 0
  vecDriverFromHeadTranslation := fun _ => 0
  qWorldFromDriverRotation := ⟨1, 0, 0, 0⟩
  qDriverFromHeadRotation := ⟨1, 0, 0, 0⟩
  vecPosition := report.translation
  vecVelocity := fun _ => 0
  vecAcceleration := fun _ => 0
  qRotation := report.rotation
  vecAngularVelocity := fun _ => 0
  vecAngularAcceleration := fun _ => 0
  result := .Running_OK
  poseIsValid := true
  willDriftInYaw := true
  shouldApplyHeadModel := true

end OSVRTrackedHMD

/-- C2 -- At the report with translation (1, 2, 3),
`OSVRTrackedDevice::HmdTrackerCallback` publishes position (1, 1, 1): the
second component of the published position is the first component of the
report's translation, not the second, because the source loop indexes
`translation.data[0]` for every `i`.  The `OSVRTrackedHMD` callback at the
same report does copy the translation component-wise. -/
theorem hmdTrackerCallback_position_divergence :
    (OSVRTrackedDevice.HmdTrackerCallbackPose
        ⟨![1, 2, 3], ⟨1, 0, 0, 0⟩⟩).vecPosition 1 = 1 ∧
    (⟨![1, 2, 3], ⟨1, 0, 0, 0⟩⟩ : OSVRPoseReport).translation 1 = 2 ∧
    (OSVRTrackedDevice.HmdTrackerCallbackPose
        ⟨![1, 2, 3], ⟨1, 0, 0, 0⟩⟩).vecPosition 1 ≠
      (⟨![1, 2, 3], ⟨1, 0, 0, 0⟩⟩ : OSVRPoseReport).translation 1 ∧
    (OSVRTrackedHMD.HmdTrackerCallbackPose
        ⟨![1, 2, 3], ⟨1, 0, 0, 0⟩⟩).vecPosition 1 =
      (⟨![1, 2, 3], ⟨1, 0, 0, 0⟩⟩ : OSVRPoseReport).translation 1 := by
  refine ⟨rfl, rfl, ?_, rfl⟩
  decide

/-! ## Activation-time display validation (OSVRTrackedHMD::Activate) -/

/-- `vr::EVRInitError` values occurring in `OSVRTrackedHMD::Activate`. -/
inductive EVRInitError where
  | None
  | Driver_Failed
  | Driver_HmdDisplayNotFound
  deriving DecidableEq, Repr

namespace OSVRTrackedHMD

/-- The display-configuration validation block of `OSVRTrackedHMD::Activate`
(second translation unit, lines 108-122), as a function of the numbers the
display config reports: number of viewers, number of eyes of viewer 0, and
number of surfaces of each eye.  `some e` means the block returns early with
error `e`; `none` means Activate continues past the block (and, absent other
failures, completes with `VRInitError_None`).  The outer guard is the
source's `&&`-chain verbatim. -/
def activateDisplayCheck (numViewers numEyes numSurfaces0 numSurfaces1 : Nat) :
    Option EVRInitError :=
  if numViewers ≠ 1 ∧ numEyes ≠ 2 ∧ numSurfaces0 = 1 ∧ numSurfaces1 ≠ 1 then
    if numViewers < 1 then
      some .Driver_HmdDisplayNotFound
    else if numEyes < 2 then
      some .Driver_HmdDisplayNotFound
    else if numSurfaces0 < 1 ∨ numSurfaces1 < 1 then
      some .Driver_HmdDisplayNotFound
    else
      none
  else
    none

end OSVRTrackedHMD

/-- C7 -- Invalid display configurations slip through the activation check:
a config with one viewer that has only one eye (each eye with one surface),
and a config with zero viewers (two eyes, one surface each), both pass the
validation block without producing the display-not-found error, because the
guard combines its four tests with `&&` where its own error branches (and
the claim) require any single failing test to abort activation. -/
theorem activateDisplayCheck_accepts_invalid_config :
    OSVRTrackedHMD.activateDisplayCheck 1 1 1 1 = none ∧
    OSVRTrackedHMD.activateDisplayCheck 0 2 1 1 = none := by
  constructor <;> rfl

/-! ## Display configuration fallback (OSVRTrackedHMD::configure) -/

/-- `osvr::display::Rotation`. -/
inductive DisplayRotation where
  | Zero
  | Ninety
  | OneEighty
  | TwoSeventy
  deriving DecidableEq, Repr

/-- `osvr::display::Display`, restricted to the fields `configure` writes. -/
structure Display where
  adapterDescription : String
  name : String
  sizeWidth : Nat
  sizeHeight : Nat
  positionX : Int
  positionY : Int
  rotation : DisplayRotation
  verticalRefreshRate : ℚ
  attachedToDesktop : Bool
  edidVendorId : Nat
  edidProductId : Nat
  deriving DecidableEq, Repr

/-- `a.leadsWith b`: the character list `a` occurs at the start of `b`
(the prefix test underlying `std::string::find`). -/
def leadsWith : List Char → List Char → Bool
  | [], _ => true
  | _ :: _, [] => false
  | a :: as, b :: bs => a = b && leadsWith as bs

/-- `std::string::find(needle) != npos`: `needle` occurs as a contiguous
substring of `haystack`. -/
def containsSubstring (haystack needle : List Char) : Bool :=
  match haystack with
  | [] => needle.isEmpty
  | _ :: t => leadsWith needle haystack || containsSubstring t needle

namespace OSVRTrackedHMD

/-- The built-in default OSVR HDK display description installed by
`OSVRTrackedHMD::configure` (second translation unit, lines 346-359) when no
attached display matches. -/
def defaultDisplay : Display where
  adapterDescription := "Unknown"
  name := "OSVR HDK"
  sizeWidth := 1920
  sizeHeight := 1080
  positionX := 1920
  positionY := 0
  rotation := .Zero
  verticalRefreshRate := 60
  attachedToDesktop := true
  edidVendorId := 0xd24e
  edidProductId := 0x1019

/-- `OSVRTrackedHMD::configure` (second translation unit, lines 329-391),
restricted to its display-selection effect: scan the attached displays for
the first whose name contains `display_name`; if none matches, install the
built-in default.  Returns the resulting `display_` value together with the
`display_found` flag. -/
def configure (displays : List Display) (display_name : String) :
    Display × Bool :=
  match displays.find?
      (fun d => containsSubstring d.name.toList display_name.toList) with
  | some d => (d, true)
  | none => (defaultDisplay, false)

end OSVRTrackedHMD

/-- C10 -- If no attached display's name contains the configured display name,
`configure` does not fail: it installs the built-in default display
description (name "OSVR HDK", 1920x1080, position (1920, 0), 60 Hz,
attached to desktop), so the device always ends up with a usable display
description. -/
theorem configure_default_display (displays : List Display)
    (display_name : String)
    (h : ∀ d ∈ displays,
      containsSubstring d.name.toList display_name.toList = false) :
    OSVRTrackedHMD.configure displays display_name =
      (OSVRTrackedHMD.defaultDisplay, false) ∧
    OSVRTrackedHMD.defaultDisplay.name = "OSVR HDK" ∧
    OSVRTrackedHMD.defaultDisplay.sizeWidth = 1920 ∧
    OSVRTrackedHMD.defaultDisplay.sizeHeight = 1080 ∧
    OSVRTrackedHMD.defaultDisplay.positionX = 1920 ∧
    OSVRTrackedHMD.defaultDisplay.positionY = 0 ∧
    OSVRTrackedHMD.defaultDisplay.verticalRefreshRate = 60 ∧
    OSVRTrackedHMD.defaultDisplay.attachedToDesktop = true := by
  refine ⟨?_, rfl, rfl, rfl, rfl, rfl, rfl, rfl⟩
  unfold OSVRTrackedHMD.configure
  have hnone : displays.find?
      (fun d => containsSubstring d.name.toList display_name.toList) = none := by
    rw [List.find?_eq_none]
    intro d hd
    exact (h d hd) ▸ Bool.false_ne_true
  rw [hnone]

/-- Witness for C10: with one attached display named "Generic PnP Monitor"
and configured display name "OSVR", the default HDK description is
installed. -/
theorem configure_default_display_witness :
    (∀ d ∈ [{ OSVRTrackedHMD.defaultDisplay with name := "Generic PnP Monitor" }],
      containsSubstring d.name.toList ("OSVR".toList) = false) ∧
    OSVRTrackedHMD.configure
        [{ OSVRTrackedHMD.defaultDisplay with name := "Generic PnP Monitor" }]
        "OSVR" =
      (OSVRTrackedHMD.defaultDisplay, false) :=
  ⟨by decide,
    (configure_default_display
      [{ OSVRTrackedHMD.defaultDisplay with name := "Generic PnP Monitor" }]
      "OSVR" (by decide)).1⟩

/-! ## Distortion (ComputeDistortion) -/

/-- `osvr::renderkit::Float2`: a UV pair, with `float` idealized as ℚ. -/
structure Float2 where
  u : ℚ
  v : ℚ
  deriving DecidableEq, Repr

/-- `vr::DistortionCoordinates_t`: one UV pair per color channel. -/
structure DistortionCoordinates where
  red : Float2
  green : Float2
  blue : Float2
  deriving DecidableEq, Repr

/-- The eye index `static_cast<size_t>(eye)`: 0 for the left eye, 1 for the
right eye. -/
def eyeIndex : HmdEye → Nat
  | .Left => 0
  | .Right => 1

namespace OSVRTrackedHMD

/-- `OSVRTrackedHMD::ComputeDistortion` (second translation unit, lines
229-271).  `D eyeIdx coords channel` abstracts the external
`osvr::renderkit::DistortionCorrectTextureCoordinate` call on that eye's
distortion parameters, mesh interpolators and overfill factor (all selected
by the eye index); channels are 0 = red, 1 = green, 2 = blue. -/
def ComputeDistortion (D : Nat → Float2 → Nat → Float2) (eye : HmdEye)
    (u v : ℚ) : DistortionCoordinates :=
  let osvr_eye := eyeIndex eye
  let in_coords : Float2 := ⟨u, 1 - v⟩
  let coords_red := D osvr_eye in_coords 0
  let coords_green := D osvr_eye in_coords 1
  let coords_blue := D osvr_eye in_coords 2
  { red := ⟨coords_red.u, 1 - coords_red.v⟩,
    green := ⟨coords_green.u, 1 - coords_green.v⟩,
    blue := ⟨coords_blue.u, 1 - coords_blue.v⟩ }

end OSVRTrackedHMD

namespace OSVRTrackedDevice

/-- `OSVRTrackedDevice::ComputeDistortion` (first translation unit, lines
383-394): an unimplemented stub that fills every channel's coordinates with
zero, independently of the eye and input UV. -/
def ComputeDistortion (_eye : HmdEye) (_u _v : ℚ) : DistortionCoordinates :=
  { red := ⟨0, 0⟩, green := ⟨0, 0⟩, blue := ⟨0, 0⟩ }

end OSVRTrackedDevice

/-- The distortion query pipeline as the spec words it (for comparison with
the source definitions): flip the V coordinate of the input, run the
interpolation `D` independently for each of the red, green and blue channels
against that eye's mesh, and flip the V coordinate of each of the three
outputs back. -/
def distortionSpecForm (D : Nat → Float2 → Nat → Float2) (eye : HmdEye)
    (u v : ℚ) : DistortionCoordinates :=
  let flipV : Float2 → Float2 := fun c => ⟨c.u, 1 - c.v⟩
  let flipped : Float2 := flipV ⟨u, v⟩
  { red := flipV (D (eyeIndex eye) flipped 0),
    green := flipV (D (eyeIndex eye) flipped 1),
    blue := flipV (D (eyeIndex eye) flipped 2) }

/-- C6 counterexample -- `OSVRTrackedDevice::ComputeDistortion` is not of the
claimed flip/interpolate/flip-back form: under the identity interpolation
(a no-distortion mesh) at eye Left and input (1/2, 1/2) the claimed form
returns the input UV for every channel, while the stub returns (0, 0). -/
theorem computeDistortion_stub_counterexample :
    OSVRTrackedDevice.ComputeDistortion .Left (1/2) (1/2) ≠
      distortionSpecForm (fun _ c _ => c) .Left (1/2) (1/2) := by
  intro h
  have hred := congrArg (fun c => c.red.u) h
  norm_num [OSVRTrackedDevice.ComputeDistortion, distortionSpecForm] at hred

/-- C6 (amended) -- `OSVRTrackedHMD::ComputeDistortion` returns, for every
interpolation `D`, eye and undistorted UV input, the three per-channel UV
pairs obtained by flipping the V coordinate of the input, running `D`
independently for the red, green and blue channels against that eye's mesh,
and flipping the V coordinate of each output back. -/
theorem computeDistortion_flip_interpolate_flip
    (D : Nat → Float2 → Nat → Float2) (eye : HmdEye) (u v : ℚ) :
    OSVRTrackedHMD.ComputeDistortion D eye u v = distortionSpecForm D eye u v := by
  rfl

/-! ## Raw projection bounds (OSVRTrackedDevice::GetProjectionRaw) -/

/-- A 4x4 matrix of `double`s (`Eigen::Matrix4d`), idealized over ℝ. -/
structure Mat4 where
  m00 : ℝ
  m01 : ℝ
  m02 : ℝ
  m03 : ℝ
  m10 : ℝ
  m11 : ℝ
  m12 : ℝ
  m13 : ℝ
  m20 : ℝ
  m21 : ℝ
  m22 : ℝ
  m23 : ℝ
  m30 : ℝ
  m31 : ℝ
  m32 : ℝ
  m33 : ℝ

/-- Matrix product of two 4x4 matrices. -/
noncomputable def mul4 (A B : Mat4) : Mat4 where
  m00 := A.m00 * B.m00 + A.m01 * B.m10 + A.m02 * B.m20 + A.m03 * B.m30
  m01 := A.m00 * B.m01 + A.m01 * B.m11 + A.m02 * B.m21 + A.m03 * B.m31
  m02 := A.m00 * B.m02 + A.m01 * B.m12 + A.m02 * B.m22 + A.m03 * B.m32
  m03 := A.m00 * B.m03 + A.m01 * B.m13 + A.m02 * B.m23 + A.m03 * B.m33
  m10 := A.m10 * B.m00 + A.m11 * B.m10 + A.m12 * B.m20 + A.m13 * B.m30
  m11 := A.m10 * B.m01 + A.m11 * B.m11 + A.m12 * B.m21 + A.m13 * B.m31
  m12 := A.m10 * B.m02 + A.m11 * B.m12 + A.m12 * B.m22 + A.m13 * B.m32
  m13 := A.m10 * B.m03 + A.m11 * B.m13 + A.m12 * B.m23 + A.m13 * B.m33
  m20 := A.m20 * B.m00 + A.m21 * B.m10 + A.m22 * B.m20 + A.m23 * B.m30
  m21 := A.m20 * B.m01 + A.m21 * B.m11 + A.m22 * B.m21 + A.m23 * B.m31
  m22 := A.m20 * B.m02 + A.m21 * B.m12 + A.m22 * B.m22 + A.m23 * B.m32
  m23 := A.m20 * B.m03 + A.m21 * B.m13 + A.m22 * B.m23 + A.m23 * B.m33
  m30 := A.m30 * B.m00 + A.m31 * B.m10 + A.m32 * B.m20 + A.m33 * B.m30
  m31 := A.m30 * B.m01 + A.m31 * B.m11 + A.m32 * B.m21 + A.m33 * B.m31
  m32 := A.m30 * B.m02 + A.m31 * B.m12 + A.m32 * B.m22 + A.m33 * B.m32
  m33 := A.m30 * B.m03 + A.m31 * B.m13 + A.m32 * B.m23 + A.m33 * B.m33

/-- Modelled from the spec: `make_projection_matrix(fov, aspect, near, far)`
(from `projection_matrix.h`, which is not part of the sources) builds the
symmetric perspective projection matrix centered between the eyes from the
horizontal FOV (radians), aspect ratio and near/far clip planes: diagonal
scale terms from the tangent of half the FOV, the standard perspective third
row, and a `-1` in the bottom row's third column. -/
noncomputable def make_projection_matrix (fov aspect z_near z_far : ℝ) : Mat4 :=
  let t := Real.tan (fov / 2)
  { m00 := 1 / t, m01 := 0, m02 := 0, m03 := 0,
    m10 := 0, m11 := aspect / t, m12 := 0, m13 := 0,
    m20 := 0, m21 := 0, m22 := (z_near + z_far) / (z_near - z_far),
    m23 := 2 * z_near * z_far / (z_near - z_far),
    m30 := 0, m31 := 0, m32 := -1, m33 := 0 }

/-- The homogeneous matrix of
`Eigen::Affine3d(Eigen::Translation3d(Eigen::Vector3d(t, 0, 0)))`:
identity with translation `t` along the x (inter-ocular) axis. -/
noncomputable def translationAffine (t : ℝ) : Mat4 where
  m00 := 1
  m01 := 0
  m02 := 0
  m03 := t
  m10 := 0
  m11 := 1
  m12 := 0
  m13 := 0
  m20 := 0
  m21 := 0
  m22 := 1
  m23 := 0
  m30 := 0
  m31 := 0
  m32 := 0
  m33 := 1

/-- The four raw projection-plane bounds (`float` out-parameters of
`GetProjectionRaw`). -/
structure ProjectionRawBounds where
  left : ℝ
  right : ℝ
  top : ℝ
  bottom : ℝ

namespace OSVRTrackedDevice

/-- `OSVRTrackedDevice::GetProjectionRaw` (first translation unit, lines
328-350): build the center projection matrix, translate it along the
inter-ocular axis by -IPD/2 for the left eye and +IPD/2 for the right eye,
recover the near plane from the third row, and derive the four bounds. -/
noncomputable def GetProjectionRaw (fov aspect ipd : ℝ) (eye : HmdEye) :
    ProjectionRawBounds :=
  let z_near : ℝ := 0.1
  let z_far : ℝ := 100.0
  let center := make_projection_matrix fov aspect z_near z_far
  let eye_translation := if HmdEye.Left = eye then -(ipd / 2) else ipd / 2
  let eye_matrix := mul4 (translationAffine eye_translation) center
  let near := eye_matrix.m23 / (eye_matrix.m22 - 1)
  { bottom := near * (eye_matrix.m12 - 1) / eye_matrix.m11,
    top := near * (eye_matrix.m12 + 1) / eye_matrix.m11,
    left := near * (eye_matrix.m02 - 1) / eye_matrix.m00,
    right := near * (eye_matrix.m02 + 1) / eye_matrix.m00 }

end OSVRTrackedDevice

/-- Reduction of the eye-selection conditional for the left eye. -/
theorem if_eye_self {A : Type} (a b : A) :
    (if HmdEye.Left = HmdEye.Left then a else b) = a := rfl

/-- Reduction of the eye-selection conditional for the right eye. -/
theorem if_eye_other {A : Type} (a b : A) :
    (if HmdEye.Left = HmdEye.Right then a else b) = b := rfl

/-- C5 -- For every FOV in (0, pi), aspect ratio > 0 and IPD >= 0, the raw
projection bounds of the left and right eyes are mirror-symmetric about the
center frustum: the left eye's bounds equal the negation/swap of the right
eye's bounds under the flipped IPD translation direction (left translated by
-IPD/2, right by +IPD/2). -/
theorem getProjectionRaw_mirror_symmetric (fov aspect ipd : ℝ)
    (hfov0 : 0 < fov) (hfovpi : fov < Real.pi) (haspect : 0 < aspect)
    (hipd : 0 ≤ ipd) :
    (OSVRTrackedDevice.GetProjectionRaw fov aspect ipd .Left).left =
      -((OSVRTrackedDevice.GetProjectionRaw fov aspect ipd .Right).right) ∧
    (OSVRTrackedDevice.GetProjectionRaw fov aspect ipd .Left).right =
      -((OSVRTrackedDevice.GetProjectionRaw fov aspect ipd .Right).left) ∧
    (OSVRTrackedDevice.GetProjectionRaw fov aspect ipd .Left).top =
      -((OSVRTrackedDevice.GetProjectionRaw fov aspect ipd .Right).bottom) ∧
    (OSVRTrackedDevice.GetProjectionRaw fov aspect ipd .Left).bottom =
      -((OSVRTrackedDevice.GetProjectionRaw fov aspect ipd .Right).top) := by
  refine ⟨?_, ?_, ?_, ?_⟩ <;>
    simp only [OSVRTrackedDevice.GetProjectionRaw, make_projection_matrix,
      translationAffine, mul4, if_eye_self, if_eye_other] <;>
    norm_num <;>
    ring

/-- Witness for C5: mirror symmetry at FOV pi/2, aspect 1 and IPD 0.063 m. -/
theorem getProjectionRaw_mirror_symmetric_witness :
    (0 < Real.pi / 2 ∧ Real.pi / 2 < Real.pi ∧ (0 : ℝ) < 1 ∧
      (0 : ℝ) ≤ 63 / 1000) ∧
    ((OSVRTrackedDevice.GetProjectionRaw (Real.pi / 2) 1 (63 / 1000) .Left).left =
      -((OSVRTrackedDevice.GetProjectionRaw (Real.pi / 2) 1 (63 / 1000)
          .Right).right) ∧
    (OSVRTrackedDevice.GetProjectionRaw (Real.pi / 2) 1 (63 / 1000) .Left).right =
      -((OSVRTrackedDevice.GetProjectionRaw (Real.pi / 2) 1 (63 / 1000)
          .Right).left) ∧
    (OSVRTrackedDevice.GetProjectionRaw (Real.pi / 2) 1 (63 / 1000) .Left).top =
      -((OSVRTrackedDevice.GetProjectionRaw (Real.pi / 2) 1 (63 / 1000)
          .Right).bottom) ∧
    (OSVRTrackedDevice.GetProjectionRaw (Real.pi / 2) 1 (63 / 1000) .Left).bottom =
      -((OSVRTrackedDevice.GetProjectionRaw (Real.pi / 2) 1 (63 / 1000)
          .Right).top)) :=
  ⟨⟨by positivity, by linarith [Real.pi_pos], one_pos, by norm_num⟩,
    getProjectionRaw_mirror_symmetric (Real.pi / 2) 1 (63 / 1000)
      (by positivity) (by linarith [Real.pi_pos]) one_pos (by norm_num)⟩
